import Mathlib

/-!
Verification development for the `lpt` boot-timeline analyzer.

This file shallowly embeds the core of the analyzer — the cloud-init
frame reconstructor (`lpt/cloudinit.py`), the boot segmenters
(`lpt/cloudinit.py` and `lpt/journal.py`), the monotonic-timestamp
reconciliation (`lpt/time.py` and `CloudInit.load`), the systemd unit
graph walker (`lpt/graph.py`), the unit activation-time fallback chain
(`lpt/systemd.py`) and the event merge step (`lpt/analyze.py`) — and
proves properties of the embedded definitions.

Modeling conventions:
* wall-clock timestamps (`datetime.datetime`) and monotonic timestamps
  (`float` seconds) are both modeled as rationals counting seconds;
  `timedelta.total_seconds()` of a difference becomes plain subtraction;
* fallible code (Python `assert`, `raise`) is modeled with `Except`;
* Python truthiness of optional strings / floats is modeled explicitly
  (`None`, the empty string and `0.0` are falsy; `datetime` objects are
  always truthy);
* the two regular-expression probes applied to a cloud-init message
  (`CloudInitEntry.check_for_monotonic_reference`'s uptime match and
  `CloudInitEntry.is_start_of_boot_record`) are modeled as pre-extracted
  fields of the parsed record;
* Python objects mutated through shared references (`CloudInitFrame`)
  are stored in an arena (a list indexed by creation order), with
  parent/children links as arena indices.
-/

namespace Lpt

/-- Severity enumeration from `event.py` (`EventSeverity`). -/
inductive EventSeverity where
  | info
  | warning
  | error
deriving DecidableEq, Repr

/-- The `.value` payload of each `EventSeverity` member. -/
def EventSeverity.value : EventSeverity → String
  | .info => "info"
  | .warning => "warning"
  | .error => "error"

/-- Python truthiness of an `Optional[str]`: `None` and `""` are falsy. -/
def strTruthy : Option String → Bool
  | none => false
  | some s => s ≠ ""

/-- Python `str.startswith`, computed on the underlying character
lists (`String.startsWith` itself does not reduce inside the kernel). -/
def strStartsWith (s p : String) : Bool :=
  p.data.isPrefixOf s.data

/-- Python truthiness of an `Optional[float]`: `None` and `0.0` are falsy. -/
def floatTruthy : Option Rat → Bool
  | none => false
  | some x => x ≠ 0

/-- The declared default of the `severity` field of the `Event`
dataclass: `event.py` line 21 declares `severity: EventSeverity` with
no default value. -/
def eventSeverityFieldDefault : Option EventSeverity := none

/-- Python dataclass keyword construction of the severity argument: a
caller that does not pass `severity` gets the field's declared default;
with no default the construction raises `TypeError`. -/
def resolveSeverityArg (passed : Option EventSeverity) : Except String EventSeverity :=
  match passed with
  | some s => .ok s
  | none =>
      match eventSeverityFieldDefault with
      | some d => .ok d
      | none => .error "TypeError: missing required argument: severity"

/-- The severity argument of the `CloudInitFrame(...)` constructor call
inside `get_frames` (`cloudinit.py` lines 309-324): `severity` is not
among the keywords passed there. -/
def getFramesSeverityArg : Option EventSeverity := none

/-- One parsed cloud-init log record (`cloudinit.py`, `CloudInitEntry`),
as produced by `CloudInitEntry.parse` before any monotonic estimation:
`timestamp_monotonic` starts at `0.0`.  The two message regex probes are
carried as pre-extracted fields: `uptime_match` is the seconds captured
by the `.* Up (.*) seconds` search (when it matches) and `is_boot_start`
is the result of the `Cloud-init .* running 'init-local'` search. -/
structure CloudInitEntry where
  message : String
  event_type : String
  stage : Option String
  module : Option String
  result : Option String
  timestamp_realtime : Rat
  timestamp_monotonic : Rat
  uptime_match : Option Rat
  is_boot_start : Bool
deriving DecidableEq, Repr

/-- A reconstructed cloud-init frame (`cloudinit.py`, `CloudInitFrame`).
The Python object graph (mutable frames shared between the result list,
the stack and parent/children links) is modeled as an arena: frames live
in a list ordered by creation, and `parent` / `children` hold arena
indices. -/
structure CloudInitFrame where
  label : String
  source : String
  severity : EventSeverity
  stage : String
  module : String
  timestamp_realtime : Rat
  timestamp_monotonic : Rat
  timestamp_realtime_start : Rat
  timestamp_realtime_finish : Rat
  timestamp_monotonic_start : Rat
  timestamp_monotonic_finish : Rat
  duration : Rat
  result : String
  parent : Option Nat
  children : Finset Nat
deriving DecidableEq

/-- `CloudInitFrame.is_failed`: any result other than `SUCCESS`. -/
def CloudInitFrame.is_failed (f : CloudInitFrame) : Bool :=
  f.result ≠ "SUCCESS"

/-- The ways the body of `CloudInit.get_frames` can raise.  The
stage/module comparison failures are the spec's `FrameMismatchError`;
the `assert*Missing` cases are missing-field assertion failures; and
`typeErrorSeverityArgMissing` is the `TypeError` raised by the
`CloudInitFrame(...)` constructor call for a `start` entry, whose
keyword arguments omit the `severity` field that `Event` declares
without a default (`event.py`). -/
inductive FrameError where
  | assertModuleMissing
  | assertStageMissing
  | assertResultMissing
  | stageMismatch (frameStage entryStage : String)
  | moduleMismatch (frameModule entryModule : String)
  | typeErrorSeverityArgMissing
deriving DecidableEq, Repr

/-- Whether a `FrameError` is a start/finish (stage, module) mismatch —
the condition the spec calls `FrameMismatchError`. -/
def FrameError.isMismatch : FrameError → Bool
  | .stageMismatch _ _ => true
  | .moduleMismatch _ _ => true
  | _ => false

/-- Loop state of `CloudInit.get_frames`: the flat list of all frames
created so far (the arena) and the stack of open frames (arena indices,
head = top of stack). -/
structure FrameState where
  frames : List CloudInitFrame
  stack : List Nat
deriving DecidableEq

/-- The initial state of `CloudInit.get_frames`. -/
def initFrameState : FrameState := { frames := [], stack := [] }

/-- The `if parent: parent.children = frozenset(children | new frame)`
block of `CloudInit.get_frames`: record arena index `idx` as a child of
the (optional) parent frame at arena index `parent`. -/
def registerChild (frames : List CloudInitFrame) (parent : Option Nat) (idx : Nat) :
    List CloudInitFrame :=
  match parent with
  | some p =>
      match frames[p]? with
      | some pf => frames.set p { pf with children := insert idx pf.children }
      | none => frames
  | none => frames

@[simp] theorem length_registerChild (frames : List CloudInitFrame)
    (parent : Option Nat) (idx : Nat) :
    (registerChild frames parent idx).length = frames.length := by
  unfold registerChild
  split
  · split <;> simp
  · rfl

theorem getElem?_registerChild_ne (frames : List CloudInitFrame)
    (parent : Option Nat) (idx j : Nat) (h : parent ≠ some j) :
    (registerChild frames parent idx)[j]? = frames[j]? := by
  cases parent with
  | none => rfl
  | some p =>
      have hpj : p ≠ j := by
        intro he
        apply h
        rw [he]
      cases hq : frames[p]? with
      | none => simp [registerChild, hq]
      | some pf => simp [registerChild, hq, List.getElem?_set_ne hpj]

theorem getElem?_registerChild_self (frames : List CloudInitFrame)
    (idx p : Nat) {pf : CloudInitFrame} (h : frames[p]? = some pf) :
    (registerChild frames (some p) idx)[p]? =
      some { pf with children := insert idx pf.children } := by
  have hlt : p < frames.length := by
    by_contra hge
    rw [List.getElem?_eq_none (by omega)] at h
    exact absurd h (by simp)
  simp [registerChild, h, List.getElem?_set_self hlt]

/-- The frame object the `CloudInitFrame(...)` constructor call of
`CloudInit.get_frames` (`cloudinit.py` lines 309-324) would build for a
`start` entry, given a successfully resolved `severity` argument.  The
call site passes no `severity` keyword, so its resolution in fact fails
(see `get_frames_step`). -/
def startFrame (entry : CloudInitEntry) (parent : Option Nat)
    (sev : EventSeverity) : CloudInitFrame where
  label := "CLOUDINIT_FRAME"
  source := "cloudinit"
  severity := sev
  stage := entry.stage.getD ""
  module := entry.module.getD ""
  timestamp_realtime := entry.timestamp_realtime
  timestamp_monotonic := entry.timestamp_monotonic
  timestamp_realtime_start := entry.timestamp_realtime
  timestamp_realtime_finish := entry.timestamp_realtime
  timestamp_monotonic_start := entry.timestamp_monotonic
  timestamp_monotonic_finish := 0
  duration := 0
  result := "INCOMPLETE"
  parent := parent
  children := ∅

/-- The in-place update `CloudInit.get_frames` applies to the popped
frame while processing its matching `finish` entry
(`cloudinit.py` lines 347-352). -/
def finishFrame (fr : CloudInitFrame) (entry : CloudInitEntry) : CloudInitFrame :=
  { fr with
    timestamp_realtime_finish := entry.timestamp_realtime
    timestamp_monotonic_finish := entry.timestamp_monotonic
    duration := entry.timestamp_monotonic - fr.timestamp_monotonic_start
    result := entry.result.getD "" }

/-- One iteration of the `CloudInit.get_frames` loop
(`cloudinit.py` lines 299-352), processing a single entry:
* `start` entry: assert module and stage are truthy, then call the
  `CloudInitFrame(...)` constructor.  The keyword arguments of that
  call (lines 309-324) do not include `severity`, and the `severity`
  field inherited from `Event` has no dataclass default, so the
  constructor raises `TypeError` — the frame is never created.  (Had a
  severity been resolved, the frame — result `INCOMPLETE`, parent the
  stack top — would be registered in the parent's children, appended to
  the arena and pushed.)
* `finish` entry: pop the stack top (an orphan finish with an empty
  stack is ignored and processing continues), assert module, result and
  stage are truthy, assert the popped frame's stage and module equal the
  entry's, then record the finish timestamps, the duration
  (`entry.timestamp_monotonic - frame.timestamp_monotonic_start`) and
  the result;
* any other entry leaves the state unchanged. -/
def get_frames_step (st : FrameState) (entry : CloudInitEntry) :
    Except FrameError FrameState :=
  let parent := st.stack.head?
  if entry.event_type = "start" then
    if ¬ strTruthy entry.module then .error .assertModuleMissing
    else if ¬ strTruthy entry.stage then .error .assertStageMissing
    else
      match resolveSeverityArg getFramesSeverityArg with
      | .error _ => .error .typeErrorSeverityArgMissing
      | .ok sev =>
          let idx := st.frames.length
          let frame : CloudInitFrame := startFrame entry parent sev
          .ok { frames := registerChild st.frames parent idx ++ [frame]
                stack := idx :: st.stack }
  else if entry.event_type = "finish" then
    match st.stack with
    | [] => .ok st
    | idx :: rest =>
        match st.frames[idx]? with
        | none => .ok st
        | some frame =>
            if ¬ strTruthy entry.module then .error .assertModuleMissing
            else if ¬ strTruthy entry.result then .error .assertResultMissing
            else if ¬ strTruthy entry.stage then .error .assertStageMissing
            else if frame.stage ≠ entry.stage.getD "" then
              .error (.stageMismatch frame.stage (entry.stage.getD ""))
            else if frame.module ≠ entry.module.getD "" then
              .error (.moduleMismatch frame.module (entry.module.getD ""))
            else
              .ok { frames := st.frames.set idx (finishFrame frame entry)
                    stack := rest }
  else .ok st

/-- Run the `CloudInit.get_frames` loop over a list of entries from a
given state.  A failing assertion aborts the run, as an uncaught Python
`AssertionError` would. -/
def get_frames_run (st : FrameState) : List CloudInitEntry → Except FrameError FrameState
  | [] => .ok st
  | e :: rest => do
      let st' ← get_frames_step st e
      get_frames_run st' rest

/-- `CloudInit.get_frames`: reconstruct the frame arena of a boot's
entry list.  Returns the flat list of all frames created (in creation
order), or the first assertion failure. -/
def get_frames (entries : List CloudInitEntry) : Except FrameError (List CloudInitFrame) :=
  (get_frames_run initFrameState entries).map FrameState.frames
theorem get_frames_run_append (xs ys : List CloudInitEntry) (st : FrameState) :
    get_frames_run st (xs ++ ys) =
      (get_frames_run st xs).bind fun st2 => get_frames_run st2 ys := by
  induction xs generalizing st with
  | nil => simp [get_frames_run, Except.bind]
  | cons e rest ih =>
      simp only [List.cons_append, get_frames_run]
      cases h : get_frames_step st e with
      | error err => rfl
      | ok st2 =>
          show get_frames_run st2 (rest ++ ys) = _
          rw [ih]
          rfl

theorem get_frames_run_cons (st : FrameState) (e : CloudInitEntry)
    (rest : List CloudInitEntry) :
    get_frames_run st (e :: rest) =
      match get_frames_step st e with
      | .error err => .error err
      | .ok st2 => get_frames_run st2 rest := by
  simp only [get_frames_run]
  cases get_frames_step st e <;> rfl

/-- Computation lemma: a `finish` entry arriving while the stack is
empty (an orphan finish) leaves the state unchanged — the `IndexError`
of the pop is caught and the loop continues. -/
theorem get_frames_step_orphan (st : FrameState) (e : CloudInitEntry)
    (htype : e.event_type = "finish") (hstk : st.stack = []) :
    get_frames_step st e = .ok st := by
  have hne : ¬ e.event_type = "start" := by rw [htype]; decide
  simp only [get_frames_step, hne, if_neg, htype, if_pos rfl, hstk]
  simp

/-- Computation lemma: a `start` entry whose module and stage asserts
pass reaches the `CloudInitFrame(...)` constructor call, which raises
`TypeError` because no `severity` keyword is passed and the field has
no dataclass default. -/
theorem get_frames_step_start_raises (st : FrameState) (e : CloudInitEntry)
    (htype : e.event_type = "start") (hmod : strTruthy e.module = true)
    (hstage : strTruthy e.stage = true) :
    get_frames_step st e = .error .typeErrorSeverityArgMissing := by
  simp [get_frames_step, htype, hmod, hstage, resolveSeverityArg,
    getFramesSeverityArg, eventSeverityFieldDefault]

/-- A successful step from a state with empty arena and stack returns a
state with empty arena and stack: a `start` entry raises the severity
`TypeError` before pushing anything, and a `finish` or log entry
changes nothing. -/
theorem get_frames_step_empty {st st' : FrameState} {e : CloudInitEntry}
    (hf : st.frames = []) (hs : st.stack = [])
    (h : get_frames_step st e = .ok st') : st'.frames = [] ∧ st'.stack = [] := by
  simp only [get_frames_step, resolveSeverityArg, getFramesSeverityArg,
    eventSeverityFieldDefault, hs] at h
  repeat' split at h
  all_goals first
    | (cases h; exact ⟨hf, hs⟩)
    | exact absurd h (by simp)

/-- Over any entry stream, a run of the `get_frames` loop from the
initial state can only succeed with an empty arena and an empty
stack. -/
theorem get_frames_run_empty {st S : FrameState} {es : List CloudInitEntry}
    (hf : st.frames = []) (hs : st.stack = [])
    (h : get_frames_run st es = .ok S) : S.frames = [] ∧ S.stack = [] := by
  induction es generalizing st with
  | nil =>
      simp only [get_frames_run] at h
      cases h
      exact ⟨hf, hs⟩
  | cons e rest ih =>
      rw [get_frames_run_cons] at h
      cases hstep : get_frames_step st e with
      | error err => rw [hstep] at h; simp at h
      | ok st2 =>
          rw [hstep] at h
          obtain ⟨h2f, h2s⟩ := get_frames_step_empty hf hs hstep
          exact ih h2f h2s h

/-- A failing step from a state with an empty stack never raises a
mismatch error: the mismatch asserts sit behind a successful pop. -/
theorem get_frames_step_empty_error {st : FrameState} {e : CloudInitEntry}
    {err : FrameError} (hs : st.stack = [])
    (h : get_frames_step st e = .error err) : err.isMismatch = false := by
  simp only [get_frames_step, resolveSeverityArg, getFramesSeverityArg,
    eventSeverityFieldDefault, hs] at h
  repeat' split at h
  all_goals first
    | (injection h with h; subst h; rfl)
    | exact absurd h (by simp)

/-- A run of the `get_frames` loop from the initial state never fails
with a mismatch error. -/
theorem get_frames_run_empty_error {st : FrameState} {es : List CloudInitEntry}
    {err : FrameError} (hf : st.frames = []) (hs : st.stack = [])
    (h : get_frames_run st es = .error err) : err.isMismatch = false := by
  induction es generalizing st with
  | nil => simp [get_frames_run] at h
  | cons e rest ih =>
      rw [get_frames_run_cons] at h
      cases hstep : get_frames_step st e with
      | error e2 =>
          rw [hstep] at h
          simp at h
          subst h
          exact get_frames_step_empty_error hs hstep
      | ok st2 =>
          rw [hstep] at h
          obtain ⟨h2f, h2s⟩ := get_frames_step_empty hf hs hstep
          exact ih h2f h2s h

/-- The parsed `start: init-local/DataSourceAzure: _get_data` entry of
the claim's end-to-end scenario, with monotonic timestamp 5. -/
def pairStartEntry : CloudInitEntry where
  message := "_get_data"
  event_type := "start"
  stage := some "init-local"
  module := some "DataSourceAzure"
  result := none
  timestamp_realtime := 10
  timestamp_monotonic := 5
  uptime_match := none
  is_boot_start := false

/-- The matching parsed
`finish: init-local/DataSourceAzure: SUCCESS: _get_data` entry, with
monotonic timestamp 8. -/
def pairFinishEntry : CloudInitEntry where
  message := "_get_data"
  event_type := "finish"
  stage := some "init-local"
  module := some "DataSourceAzure"
  result := some "SUCCESS"
  timestamp_realtime := 13
  timestamp_monotonic := 8
  uptime_match := none
  is_boot_start := false

/-- A finish entry whose module does not match `pairStartEntry`. -/
def mismatchFinishEntry : CloudInitEntry where
  message := "other"
  event_type := "finish"
  stage := some "init-local"
  module := some "Other"
  result := some "SUCCESS"
  timestamp_realtime := 13
  timestamp_monotonic := 8
  uptime_match := none
  is_boot_start := false

/-- **C1** (refuted as stated — the reconstruction never happens).  The
claim's premise puts a `start` entry in the boot's stream, but the
`CloudInitFrame(...)` constructor call for a `start` entry omits the
`severity` keyword of a field that has no dataclass default, so once
the module and stage asserts pass, `get_frames` raises `TypeError` at
every `start` entry: any run reaching the claim's start entry aborts
with that error, and a successful `get_frames` run can only return the
empty frame list — never the matched-pair frame the claim describes. -/
theorem get_frames_start_type_error :
    (∀ (st : FrameState) (e : CloudInitEntry),
        e.event_type = "start" → strTruthy e.module = true →
        strTruthy e.stage = true →
        get_frames_step st e = .error .typeErrorSeverityArgMissing) ∧
    (∀ (pre post : List CloudInitEntry) (s : CloudInitEntry) (S : FrameState),
        get_frames_run initFrameState pre = .ok S →
        s.event_type = "start" → strTruthy s.module = true →
        strTruthy s.stage = true →
        get_frames (pre ++ s :: post) = .error .typeErrorSeverityArgMissing) ∧
    (∀ (es : List CloudInitEntry) (out : List CloudInitFrame),
        get_frames es = .ok out → out = []) := by
  refine ⟨get_frames_step_start_raises, ?_, ?_⟩
  · intro pre post s S hpre hstype hsmod hsstage
    unfold get_frames
    rw [get_frames_run_append, hpre]
    simp only [Except.bind]
    rw [get_frames_run_cons, get_frames_step_start_raises S s hstype hsmod hsstage]
    rfl
  · intro es out hout
    unfold get_frames at hout
    cases hrun : get_frames_run initFrameState es with
    | error err => rw [hrun] at hout; simp [Except.map] at hout
    | ok S =>
        rw [hrun] at hout
        simp only [Except.map, Except.ok.injEq] at hout
        obtain ⟨hSf, -⟩ := get_frames_run_empty rfl rfl hrun
        rw [← hout]
        exact hSf

/-- Witness for C1: on the claim's own end-to-end scenario (the matched
`start`/`finish` pair), `get_frames` raises the severity `TypeError` at
the start entry instead of returning a frame. -/
theorem get_frames_start_type_error_witness :
    get_frames_step initFrameState pairStartEntry =
      .error .typeErrorSeverityArgMissing ∧
    get_frames ([] ++ pairStartEntry :: [pairFinishEntry]) =
      .error .typeErrorSeverityArgMissing :=
  ⟨get_frames_start_type_error.1 initFrameState pairStartEntry rfl (by decide)
      (by decide),
   get_frames_start_type_error.2.1 [] [pairFinishEntry] pairStartEntry
      initFrameState rfl rfl (by decide) (by decide)⟩

/-- **C2** (the mismatch half is unreachable; the orphan half holds).
The claimed mismatch error on a `finish` entry disagreeing with the
open frame can never be raised: the mismatch asserts run only after a
successful pop, an open frame on the stack requires a previously
processed `start` entry, and every `start` entry raises the severity
`TypeError` first (`CloudInitFrame` constructor, see C1/C7) — so the
open-frame stack stays empty and every error `get_frames` returns is a
non-mismatch error; on the claim's own trigger (a start entry followed
by a mismatching finish) the run aborts with the `TypeError` at the
start entry.  The orphan half holds in a strengthened form: from the
initial state every `finish` entry is ignored and the remaining
entries are processed exactly as if it were absent. -/
theorem get_frames_mismatch_unreachable :
    (∀ (es : List CloudInitEntry) (err : FrameError),
        get_frames es = .error err → err.isMismatch = false) ∧
    get_frames [pairStartEntry, mismatchFinishEntry] =
      .error .typeErrorSeverityArgMissing ∧
    (∀ (pre post : List CloudInitEntry) (f : CloudInitEntry),
        f.event_type = "finish" →
        get_frames (pre ++ f :: post) = get_frames (pre ++ post)) := by
  refine ⟨?_, rfl, ?_⟩
  · intro es err herr
    unfold get_frames at herr
    cases hrun : get_frames_run initFrameState es with
    | error e2 =>
        rw [hrun] at herr
        have h2 : (Except.error e2 : Except FrameError (List CloudInitFrame)) =
            .error err := herr
        injection h2 with h2
        subst h2
        exact get_frames_run_empty_error rfl rfl hrun
    | ok S => rw [hrun] at herr; simp [Except.map] at herr
  · intro pre post f hft
    unfold get_frames
    rw [get_frames_run_append, get_frames_run_append]
    cases hpre : get_frames_run initFrameState pre with
    | error err => rfl
    | ok S =>
        obtain ⟨-, hstk⟩ := get_frames_run_empty rfl rfl hpre
        simp only [Except.bind]
        rw [get_frames_run_cons, get_frames_step_orphan S f hft hstk]

/-- Witness for C2: the error `get_frames` raises on the
start-then-mismatching-finish stream is the severity `TypeError`, not
a mismatch; and a finish entry at the head of a stream is dropped with
processing continuing on the rest. -/
theorem get_frames_mismatch_unreachable_witness :
    FrameError.typeErrorSeverityArgMissing.isMismatch = false ∧
    get_frames ([] ++ pairFinishEntry :: [pairStartEntry]) =
      get_frames ([] ++ [pairStartEntry]) :=
  ⟨get_frames_mismatch_unreachable.1 [pairStartEntry, mismatchFinishEntry]
      .typeErrorSeverityArgMissing get_frames_mismatch_unreachable.2.1,
   get_frames_mismatch_unreachable.2.2 [] [pairStartEntry] pairFinishEntry rfl⟩

/-! ### `CloudInit.load`: parsing-time estimation, boot segmentation -/

/-- `calculate_reference_timestamp` (`time.py`): the wall-clock instant
of monotonic time zero. -/
def calculate_reference_timestamp (timestamp : Rat) (monotonic_time : Rat) : Rat :=
  timestamp - monotonic_time

/-- `CloudInitEntry.estimate_timestamp_monotonic`: monotonic is the
entry's realtime minus the reference
(`(realtime - reference).total_seconds()`). -/
def estimate_timestamp_monotonic (e : CloudInitEntry) (reference : Rat) : CloudInitEntry :=
  { e with timestamp_monotonic := e.timestamp_realtime - reference }

/-- `CloudInitEntry.check_for_monotonic_reference`: when the message
carries an uptime hint (`.* Up (.*) seconds`), compute the reference
timestamp from it, estimate this entry's own monotonic timestamp, and
return the reference; otherwise return nothing. -/
def check_for_monotonic_reference (e : CloudInitEntry) : CloudInitEntry × Option Rat :=
  match e.uptime_match with
  | none => (e, none)
  | some u =>
      let reference := calculate_reference_timestamp e.timestamp_realtime u
      (estimate_timestamp_monotonic e reference, some reference)

/-- The timestamp tail of `CloudInitEntry.parse`: with a reference
already known, estimate the fresh entry's monotonic timestamp from it;
otherwise probe the entry itself for an uptime hint. -/
def parse_time_estimate (e : CloudInitEntry) (reference : Option Rat) : CloudInitEntry :=
  match reference with
  | some r => estimate_timestamp_monotonic e r
  | none => (check_for_monotonic_reference e).1

/-- The four cloud-init stage names recognized by `CloudInit.load`. -/
def stageNames : List String :=
  ["init-local", "init-network", "modules-config", "modules-final"]

/-- One boot produced by `CloudInit.load` (the `CloudInit` dataclass;
the raw `logs` string is not modeled). -/
structure CloudInit where
  entries : List CloudInitEntry
  reference_monotonic : Option Rat
deriving DecidableEq, Repr

/-- Loop state of `CloudInit.load`. -/
structure LoadState where
  cloudinits : List CloudInit
  boot_entries : List CloudInitEntry
  reference_monotonic : Option Rat
  last_timestamp : Option Rat
  last_stage : String
deriving DecidableEq, Repr

/-- The initial state of the `CloudInit.load` loop. -/
def initLoadState : LoadState where
  cloudinits := []
  boot_entries := []
  reference_monotonic := none
  last_timestamp := none
  last_stage := "init-local"

/-- One microsecond, the sub-resolution nudge added by `CloudInit.load`
to a non-increasing timestamp. -/
def microsecond : Rat := 1 / 1000000

/-- The `last_stage` tracking loop of `CloudInit.load` (lines 231-238):
the last stage name the entry's parsed stage starts with, else the
previous value. -/
def update_last_stage (e : CloudInitEntry) (last_stage : String) : String :=
  stageNames.foldl
    (fun acc stage =>
      if strTruthy e.stage ∧ strStartsWith (e.stage.getD "") stage then stage else acc)
    last_stage

/-- The stage default of `CloudInit.load` (lines 240-241): an entry
without a truthy stage is assigned `last_stage`. -/
def assign_stage (e : CloudInitEntry) (last_stage : String) : CloudInitEntry :=
  if strTruthy e.stage then e else { e with stage := some last_stage }

/-- The sub-resolution correction of `CloudInit.load` (lines 243-252):
a realtime timestamp not strictly above the previous entry's is nudged
one microsecond past it. -/
def nudge_timestamp (e : CloudInitEntry) (last_timestamp : Option Rat) : CloudInitEntry :=
  match last_timestamp with
  | some t =>
      if e.timestamp_realtime ≤ t then
        { e with timestamp_realtime := t + microsecond }
      else e
  | none => e

/-- The backfill applied to each buffered entry when a boot closes
(lines 260-262): an entry whose monotonic timestamp is still `0.0` is
estimated from the current reference when one exists. -/
def backfill_entry (reference : Option Rat) (be : CloudInitEntry) : CloudInitEntry :=
  if be.timestamp_monotonic = 0 ∧ reference.isSome then
    estimate_timestamp_monotonic be (reference.getD 0)
  else be

/-- One iteration of the `CloudInit.load` loop (`cloudinit.py` lines
223-274) on a successfully parsed entry:
1. the entry comes out of `CloudInitEntry.parse(line,
   reference_monotonic)`, so its monotonic timestamp is estimated from
   the current reference when one is known, else from its own hint;
2. `last_stage` tracks the stage prefix of the entry's parsed stage,
   and an entry without a truthy stage is assigned `last_stage`;
3. a realtime timestamp not strictly above the previous entry's is
   nudged to one microsecond above it (`last_timestamp`);
4. the entry is re-probed for an uptime hint (with the nudged
   realtime), updating the loop's reference timestamp;
5. on a boot-start entry with a non-empty buffer the buffer is
   backfilled (estimating every entry whose monotonic is still `0.0`
   when a reference exists) and emitted as a boot.  The Python
   `for entry in boot_entries:` backfill loop rebinds the loop variable
   `entry`, so the subsequent `boot_entries = [entry]` seeds the next
   boot with the closed boot's (backfilled) last entry — the boundary
   entry itself is dropped.  Otherwise the entry is appended to the
   buffer. -/
def load_step (st : LoadState) (raw : CloudInitEntry) : LoadState :=
  let e1 := parse_time_estimate raw st.reference_monotonic
  let last_stage := update_last_stage e1 st.last_stage
  let e2 := assign_stage e1 last_stage
  let e3 := nudge_timestamp e2 st.last_timestamp
  let last_timestamp := e3.timestamp_realtime
  let checked := check_for_monotonic_reference e3
  let e4 := checked.1
  let reference :=
    match checked.2 with
    | some r => some r
    | none => st.reference_monotonic
  if e4.is_boot_start = true ∧ st.boot_entries ≠ [] then
    let backfilled := st.boot_entries.map (backfill_entry reference)
    { cloudinits := st.cloudinits ++
        [{ entries := backfilled, reference_monotonic := reference }]
      boot_entries := backfilled.getLast?.toList
      reference_monotonic := reference
      last_timestamp := some last_timestamp
      last_stage := "init-local" }
  else
    { cloudinits := st.cloudinits
      boot_entries := st.boot_entries ++ [e4]
      reference_monotonic := reference
      last_timestamp := some last_timestamp
      last_stage := last_stage }

/-- The final flush of `CloudInit.load` (lines 276-283): a trailing
non-empty buffer becomes the last boot, without any backfill pass. -/
def load_finish (st : LoadState) : List CloudInit :=
  if st.boot_entries ≠ [] then
    st.cloudinits ++
      [{ entries := st.boot_entries, reference_monotonic := st.reference_monotonic }]
  else st.cloudinits

/-- `CloudInit.load`, over the stream of successfully parsed entries
(lines that fail to parse are skipped by the `except ValueError`
handler and affect only the unmodeled raw-log capture). -/
def load (entries : List CloudInitEntry) : List CloudInit :=
  load_finish (entries.foldl load_step initLoadState)

/-- A parsed cloud-init log entry with no stage/module attribution,
optionally a boot-start marker and an uptime hint — a test fixture for
the segmentation and timestamp-estimation theorems. -/
def plainEntry (msg : String) (rt : Rat) (bs : Bool) (up : Option Rat) : CloudInitEntry where
  message := msg
  event_type := "log"
  stage := none
  module := none
  result := none
  timestamp_realtime := rt
  timestamp_monotonic := 0
  uptime_match := up
  is_boot_start := bs

/-! ### `Journal.parse_json`: journal boot segmentation -/

/-- One parsed journal record (`journal.py`, `JournalEntry`). -/
structure JournalEntry where
  message : String
  timestamp_realtime : Rat
  timestamp_monotonic : Rat
deriving DecidableEq, Repr

/-- One journal boot (`journal.py`, `Journal`). -/
structure Journal where
  entries : List JournalEntry
deriving DecidableEq, Repr

/-- Loop state of the `Journal.parse_json` split. -/
structure JournalSplitState where
  journals : List Journal
  boot_entries : List JournalEntry
deriving DecidableEq, Repr

/-- One iteration of the `Journal.parse_json` split loop
(`journal.py` lines 125-132): an entry whose message begins with
`Linux version` closes the current non-empty buffer and starts a new
boot with itself as first entry; any other entry (or a boundary hitting
an empty buffer) is appended to the buffer. -/
def parse_json_step (st : JournalSplitState) (e : JournalEntry) : JournalSplitState :=
  if strStartsWith e.message "Linux version" = true ∧ st.boot_entries ≠ [] then
    { journals := st.journals ++ [{ entries := st.boot_entries }], boot_entries := [e] }
  else
    { st with boot_entries := st.boot_entries ++ [e] }

/-- `Journal.parse_json` over the stream of parsed entries: split by
boot, flushing the final non-empty buffer as the last boot. -/
def parse_json (entries : List JournalEntry) : List Journal :=
  let st := entries.foldl parse_json_step { journals := [], boot_entries := [] }
  if st.boot_entries ≠ [] then st.journals ++ [{ entries := st.boot_entries }]
  else st.journals

/-- **C3** (evaluation of both segmenters at the claim's scenario).
The journal segmenter behaves as claimed: on a stream with two
`Linux version` boundary entries separated by other entries it returns
exactly two boots, in original order, each boundary entry heading its
own boot.  The cloud-init segmenter does not: on the stream
`b1 (boundary), m2, b3 (boundary), m4` it returns two boots
`[[b1, m2], [m2, m4]]` — the second boundary entry `b3` is dropped and
the new boot starts with a duplicate of the previous boot's last entry
`m2`, because the backfill loop in `CloudInit.load` rebinds the Python
loop variable `entry` before `boot_entries = [entry]` runs.  This
refutes the claim that the boundary entry itself becomes the first
entry of the new boot. -/
theorem boot_segmentation_boundary_evaluation :
    (parse_json [⟨"Linux version 5.4.0", 1, 1⟩, ⟨"systemd starting", 2, 2⟩,
        ⟨"Linux version 5.4.0", 3, 3⟩, ⟨"systemd starting again", 4, 4⟩]).map
        (fun j => j.entries.map JournalEntry.message) =
      [["Linux version 5.4.0", "systemd starting"],
       ["Linux version 5.4.0", "systemd starting again"]] ∧
    (load [plainEntry "b1" 1 true none, plainEntry "m2" 2 false none,
        plainEntry "b3" 3 true none, plainEntry "m4" 4 false none]).map
        (fun b => b.entries.map CloudInitEntry.message) =
      [["b1", "m2"], ["m2", "m4"]] ∧
    (["m2", "m4"] : List String) ≠ ["b3", "m4"] := by
  refine ⟨by decide, by decide, by decide⟩

theorem check_for_monotonic_reference_stage (e : CloudInitEntry) :
    (check_for_monotonic_reference e).1.stage = e.stage := by
  cases h : e.uptime_match <;>
    simp [check_for_monotonic_reference, h, estimate_timestamp_monotonic]

theorem parse_time_estimate_stage (e : CloudInitEntry) (ref : Option Rat) :
    (parse_time_estimate e ref).stage = e.stage := by
  cases ref with
  | none => simp [parse_time_estimate, check_for_monotonic_reference_stage]
  | some r => simp [parse_time_estimate, estimate_timestamp_monotonic]

theorem nudge_timestamp_stage (e : CloudInitEntry) (lt : Option Rat) :
    (nudge_timestamp e lt).stage = e.stage := by
  cases lt with
  | none => rfl
  | some t =>
      simp only [nudge_timestamp]
      split <;> rfl

theorem backfill_entry_stage (r : Option Rat) (be : CloudInitEntry) :
    (backfill_entry r be).stage = be.stage := by
  simp only [backfill_entry]
  split <;> simp [estimate_timestamp_monotonic]

theorem assign_stage_truthy (e : CloudInitEntry) (ls : String) (h : ls ≠ "") :
    strTruthy (assign_stage e ls).stage = true := by
  simp only [assign_stage]
  split
  · assumption
  · simp [strTruthy, h]

theorem update_last_stage_ne (e : CloudInitEntry) (ls : String) (h : ls ≠ "") :
    update_last_stage e ls ≠ "" := by
  have hgen : ∀ (l : List String) (acc : String), acc ≠ "" → (∀ x ∈ l, x ≠ "") →
      l.foldl (fun a stage =>
        if strTruthy e.stage ∧ strStartsWith (e.stage.getD "") stage then stage else a)
        acc ≠ "" := by
    intro l
    induction l with
    | nil =>
        intro acc hacc _
        simpa using hacc
    | cons x xs ih =>
        intro acc hacc hl
        simp only [List.foldl_cons]
        split
        · exact ih x (hl x (List.mem_cons_self x xs))
            (fun y hy => hl y (List.mem_cons_of_mem _ hy))
        · exact ih acc hacc (fun y hy => hl y (List.mem_cons_of_mem _ hy))
  simp only [update_last_stage]
  exact hgen stageNames ls h (by decide)

/-- The stage invariant of the `CloudInit.load` loop: the tracked
`last_stage` is a non-empty name, and every entry already stored in the
buffer or in an emitted boot carries a truthy (non-`None`, non-empty)
stage. -/
def LoadStagesOk (st : LoadState) : Prop :=
  st.last_stage ≠ "" ∧ (∀ e ∈ st.boot_entries, strTruthy e.stage = true) ∧
    ∀ b ∈ st.cloudinits, ∀ e ∈ b.entries, strTruthy e.stage = true

theorem initLoadState_stagesOk : LoadStagesOk initLoadState := by
  refine ⟨by decide, ?_, ?_⟩ <;> simp [initLoadState]

theorem load_step_stagesOk (st : LoadState) (raw : CloudInitEntry)
    (h : LoadStagesOk st) : LoadStagesOk (load_step st raw) := by
  obtain ⟨hls, hbuf, hboots⟩ := h
  have hstage4 : strTruthy ((check_for_monotonic_reference
      (nudge_timestamp
        (assign_stage (parse_time_estimate raw st.reference_monotonic)
          (update_last_stage (parse_time_estimate raw st.reference_monotonic)
            st.last_stage))
        st.last_timestamp)).1).stage = true := by
    rw [check_for_monotonic_reference_stage, nudge_timestamp_stage]
    exact assign_stage_truthy _ _ (update_last_stage_ne _ _ hls)
  simp only [load_step]
  split
  · refine ⟨by simp, ?_, ?_⟩
    · intro e he
      simp only [Option.mem_toList, Option.mem_def] at he
      obtain ⟨be, hbe, hbeq⟩ :=
        List.mem_map.mp (List.mem_of_getLast?_eq_some he)
      rw [← hbeq, backfill_entry_stage]
      exact hbuf be hbe
    · intro b hb e he
      rcases List.mem_append.mp hb with hb | hb
      · exact hboots b hb e he
      · simp only [List.mem_singleton] at hb
        subst hb
        obtain ⟨be, hbe, hbeq⟩ := List.mem_map.mp he
        rw [← hbeq, backfill_entry_stage]
        exact hbuf be hbe
  · refine ⟨update_last_stage_ne _ _ hls, ?_, hboots⟩
    intro e he
    rcases List.mem_append.mp he with he | he
    · exact hbuf e he
    · simp only [List.mem_singleton] at he
      subst he
      exact hstage4

theorem load_foldl_stagesOk (entries : List CloudInitEntry) (st : LoadState)
    (h : LoadStagesOk st) : LoadStagesOk (entries.foldl load_step st) := by
  induction entries generalizing st with
  | nil => exact h
  | cons e rest ih => exact ih (load_step st e) (load_step_stagesOk st e h)

theorem load_boot_stages (entries : List CloudInitEntry) (b : CloudInit)
    (hb : b ∈ load entries) : ∀ e ∈ b.entries, strTruthy e.stage = true := by
  obtain ⟨-, hbuf, hboots⟩ := load_foldl_stagesOk entries initLoadState initLoadState_stagesOk
  unfold load load_finish at hb
  split at hb
  · rcases List.mem_append.mp hb with hb | hb
    · exact hboots b hb
    · simp only [List.mem_singleton] at hb
      subst hb
      exact hbuf
  · exact hboots b hb

theorem get_frames_step_no_stageMissing (st : FrameState) (e : CloudInitEntry)
    (h : strTruthy e.stage = true) :
    get_frames_step st e ≠ .error .assertStageMissing := by
  simp only [get_frames_step]
  repeat' split
  all_goals simp_all

theorem get_frames_run_no_stageMissing (es : List CloudInitEntry) (st : FrameState)
    (h : ∀ e ∈ es, strTruthy e.stage = true) :
    get_frames_run st es ≠ .error .assertStageMissing := by
  induction es generalizing st with
  | nil => simp [get_frames_run]
  | cons e rest ih =>
      rw [get_frames_run_cons]
      cases hstep : get_frames_step st e with
      | error err =>
          have hne := get_frames_step_no_stageMissing st e (h e (List.mem_cons_self e rest))
          rw [hstep] at hne
          intro hc
          simp only [Except.error.injEq] at hc
          exact hne (by rw [hc])
      | ok st2 => exact ih st2 (fun x hx => h x (List.mem_cons_of_mem _ hx))

/-- **C10.** After `CloudInit.load` returns, every entry of every
returned boot has a truthy stage (non-`None` and non-empty): an entry
parsed without an explicit stage is assigned the most recently seen
stage, defaulting to `init-local` at the start of each boot.
Consequently the `assert entry.stage` checks of `get_frames` are always
met for loaded boots: the reconstruction never fails with the
missing-stage assertion. -/
theorem load_entries_stage_assigned :
    (∀ (entries : List CloudInitEntry) (b : CloudInit) (e : CloudInitEntry),
        b ∈ load entries → e ∈ b.entries → strTruthy e.stage = true) ∧
    (∀ (entries : List CloudInitEntry) (b : CloudInit),
        b ∈ load entries → get_frames b.entries ≠ .error .assertStageMissing) := by
  constructor
  · intro entries b e hb he
    exact load_boot_stages entries b hb e he
  · intro entries b hb
    have hstages := load_boot_stages entries b hb
    unfold get_frames
    cases hrun : get_frames_run initFrameState b.entries with
    | error err =>
        have := get_frames_run_no_stageMissing b.entries initFrameState hstages
        rw [hrun] at this
        intro hc
        simp only [Except.map, Except.error.injEq] at hc
        exact this (by rw [hc])
    | ok st => simp [Except.map]

/-- Witness for C10: a loaded single-entry boot (parsed without a
stage) has the default `init-local` stage, and its frame reconstruction
does not hit the missing-stage assertion. -/
theorem load_entries_stage_assigned_witness :
    strTruthy (⟨"m", "log", some "init-local", none, none, 1, 0, none, false⟩ :
        CloudInitEntry).stage = true ∧
    get_frames (⟨[⟨"m", "log", some "init-local", none, none, 1, 0, none, false⟩],
        none⟩ : CloudInit).entries ≠ .error .assertStageMissing :=
  ⟨load_entries_stage_assigned.1 [plainEntry "m" 1 false none]
      ⟨[⟨"m", "log", some "init-local", none, none, 1, 0, none, false⟩], none⟩
      ⟨"m", "log", some "init-local", none, none, 1, 0, none, false⟩
      (by decide) (by decide),
    load_entries_stage_assigned.2 [plainEntry "m" 1 false none]
      ⟨[⟨"m", "log", some "init-local", none, none, 1, 0, none, false⟩], none⟩
      (by decide)⟩

/-! ### `walk_dependencies` (`graph.py`): the unit dependency walker -/

/-- A systemd service as queried by `graph.py`'s `Service.query`: name,
After-set (with a fixed iteration order), condition result and the
activation timestamps consulted by the walk filters. -/
structure Service where
  name : String
  after : List String
  condition_result : Option Bool
  active_enter_timestamp_monotonic : Rat
  inactive_exit_timestamp_monotonic : Rat
  exec_main_start_timestamp_monotonic : Option Rat
  exec_main_exit_timestamp_monotonic : Option Rat
deriving DecidableEq

/-- The mutable state threaded through `walk_dependencies`: the
dependency edge set `deps` and the visited-name set `seen`. -/
structure WalkState where
  deps : Finset (Service × Service)
  seen : Finset String
deriving DecidableEq

/-- The number of snapshot unit names not yet visited — the termination
measure of the walk. -/
def unseenKeys (snap : List (String × Service)) (seen : Finset String) : Nat :=
  ((snap.map Prod.fst).toFinset \ seen).card

theorem unseenKeys_le (snap : List (String × Service)) {s1 s2 : Finset String}
    (h : s1 ⊆ s2) : unseenKeys snap s2 ≤ unseenKeys snap s1 :=
  Finset.card_le_card (Finset.sdiff_subset_sdiff (Finset.Subset.refl _) h)

theorem unseenKeys_insert_lt (snap : List (String × Service)) (seen : Finset String)
    (name : String) (hn : name ∉ seen) {svc : Service}
    (hk : snap.lookup name = some svc) :
    unseenKeys snap (insert name seen) < unseenKeys snap seen := by
  have hkey : name ∈ (snap.map Prod.fst).toFinset := by
    rw [List.mem_toFinset]
    induction snap with
    | nil => simp [List.lookup] at hk
    | cons p rest ih =>
        rw [List.lookup] at hk
        cases hbe : (name == p.1) with
        | true =>
            simp only [List.map_cons, List.mem_cons]
            exact Or.inl (by simpa using hbe)
        | false =>
            rw [hbe] at hk
            simp only [List.map_cons, List.mem_cons]
            exact Or.inr (ih hk)
  apply Finset.card_lt_card
  constructor
  · intro x hx
    rw [Finset.mem_sdiff] at hx ⊢
    exact ⟨hx.1, fun hs => hx.2 (Finset.mem_insert_of_mem hs)⟩
  · intro hsub
    have hmem : name ∈ (snap.map Prod.fst).toFinset \ seen :=
      Finset.mem_sdiff.mpr ⟨hkey, hn⟩
    have := hsub hmem
    rw [Finset.mem_sdiff] at this
    exact this.2 (Finset.mem_insert_self _ _)

theorem lex_of_le_of_lt {a1 a2 b1 b2 : Nat} (ha : a1 ≤ a2) (hb : b1 < b2) :
    Prod.Lex (· < ·) (· < ·) (a1, b1) (a2, b2) := by
  rcases lt_or_eq_of_le ha with h | h
  · exact Prod.Lex.left _ _ h
  · subst h
    exact Prod.Lex.right _ hb

mutual

/-- The inner `_walk_dependencies(service_name)` of `walk_dependencies`
(`graph.py` lines 178-187): return unchanged if the name was already
seen; otherwise mark it seen, look it up in the unit snapshot (a name
absent from the snapshot is skipped silently) and walk its After-set.
The returned state's visited set extends the input's (carried in the
subtype), which — with the finiteness of the snapshot — gives
well-founded termination even on cyclic After relations. -/
def walkName (snap : List (String × Service)) (fs : List String)
    (fcrn fi : Bool) (st : WalkState) (name : String) :
    {st' : WalkState // st.seen ⊆ st'.seen} :=
  if hmem : name ∈ st.seen then ⟨st, Finset.Subset.refl _⟩
  else
    have hsub1 : st.seen ⊆ insert name st.seen := Finset.subset_insert _ _
    match hl : snap.lookup name with
    | none => ⟨{ st with seen := insert name st.seen }, hsub1⟩
    | some svc =>
        let r := walkAfter snap fs fcrn fi
          { st with seen := insert name st.seen } svc svc.after
        ⟨r.1, hsub1.trans r.2⟩
termination_by (unseenKeys snap st.seen, 0)
decreasing_by
  apply Prod.Lex.left
  exact unseenKeys_insert_lt snap st.seen name hmem hl

/-- The `for dep_name in service.after:` loop of `_walk_dependencies`
(`graph.py` lines 188-205): skip a dependency that is missing from the
snapshot, name-excluded (`filter_services`), condition-result-filtered
(`filter_conditional_result_no` with a falsy condition result) or
inactive-filtered (`filter_inactive` with a falsy, i.e. `0.0`,
active-enter timestamp); otherwise record the edge
`(service, dependency)` in the edge set and recurse into the
dependency. -/
def walkAfter (snap : List (String × Service)) (fs : List String)
    (fcrn fi : Bool) (st : WalkState) (svc : Service) (deps : List String) :
    {st' : WalkState // st.seen ⊆ st'.seen} :=
  match deps with
  | [] => ⟨st, Finset.Subset.refl _⟩
  | dep :: rest =>
      match snap.lookup dep with
      | none => walkAfter snap fs fcrn fi st svc rest
      | some svcDep =>
          if dep ∈ fs then walkAfter snap fs fcrn fi st svc rest
          else if fcrn = true ∧ ¬ svcDep.condition_result = some true then
            walkAfter snap fs fcrn fi st svc rest
          else if fi = true ∧ svcDep.active_enter_timestamp_monotonic = 0 then
            walkAfter snap fs fcrn fi st svc rest
          else
            let r := walkName snap fs fcrn fi
              { st with deps := insert (svc, svcDep) st.deps } dep
            let r2 := walkAfter snap fs fcrn fi r.1 svc rest
            ⟨r2.1, Finset.Subset.trans r.2 r2.2⟩
termination_by (unseenKeys snap st.seen, deps.length + 1)
decreasing_by
  all_goals first
  | exact lex_of_le_of_lt (le_refl _) (by simp only [List.length_cons]; omega)
  | exact lex_of_le_of_lt (unseenKeys_le snap r.2)
      (by simp only [List.length_cons]; omega)

end

/-- `walk_dependencies` (`graph.py` lines 167-208): resolve the
transitive After-closure of `service_name` against the snapshot into a
set of dependency edges. -/
def walk_dependencies (snap : List (String × Service)) (fs : List String)
    (fcrn fi : Bool) (service_name : String) : Finset (Service × Service) :=
  (walkName snap fs fcrn fi ⟨∅, ∅⟩ service_name).1.deps

/-- The synthetic cyclic snapshot of the claim: `A` is after `B`, `B`
is after `C`, and `C` is after `A`; all three units were activated. -/
def svcA : Service := ⟨"A", ["B"], some true, 1, 1, none, none⟩

/-- See `svcA`. -/
def svcB : Service := ⟨"B", ["C"], some true, 2, 2, none, none⟩

/-- See `svcA`. -/
def svcC : Service := ⟨"C", ["A"], some true, 3, 3, none, none⟩

/-- The three-unit cyclic snapshot `A after B after C after A`. -/
def cycleSnap : List (String × Service) := [("A", svcA), ("B", svcB), ("C", svcC)]

/-- **C5.** The unit graph walker is cycle-safe: it is a total function
(its well-founded definition terminates on every finite snapshot,
cyclic After-relations included); a unit name already in the
visited set is never expanded again — revisiting it leaves the state
unchanged, so each name is expanded at most once; the visited set only
grows; the edge set is a set, so each dependency edge is produced once;
and on the synthetic snapshot `A after B after C after A` the walk
terminates with exactly the edge set
`{(A, B), (B, C), (C, A)}`. -/
theorem walk_dependencies_cycle_safe :
    (∀ (snap : List (String × Service)) (fs : List String) (fcrn fi : Bool)
        (st : WalkState) (name : String), name ∈ st.seen →
        (walkName snap fs fcrn fi st name).1 = st) ∧
    (∀ (snap : List (String × Service)) (fs : List String) (fcrn fi : Bool)
        (st : WalkState) (name : String),
        st.seen ⊆ (walkName snap fs fcrn fi st name).1.seen) ∧
    walk_dependencies cycleSnap [] false true "A" =
      {(svcA, svcB), (svcB, svcC), (svcC, svcA)} := by
  refine ⟨?_, ?_, ?_⟩
  · intro snap fs fcrn fi st name h
    rw [walkName]
    simp [h]
  · intro snap fs fcrn fi st name
    exact (walkName snap fs fcrn fi st name).2
  · simp [walk_dependencies, walkName, walkAfter, cycleSnap, svcA, svcB, svcC,
      List.lookup]
    decide

/-- Witness for C5: the guard and monotonicity facts applied to a
concrete state over the cyclic snapshot. -/
theorem walk_dependencies_cycle_safe_witness :
    (walkName cycleSnap [] false true ⟨∅, {"A"}⟩ "A").1 = ⟨∅, {"A"}⟩ ∧
    (⟨∅, {"A"}⟩ : WalkState).seen ⊆
      (walkName cycleSnap [] false true ⟨∅, {"A"}⟩ "B").1.seen :=
  ⟨walk_dependencies_cycle_safe.1 cycleSnap [] false true ⟨∅, {"A"}⟩ "A" (by decide),
   walk_dependencies_cycle_safe.2.1 cycleSnap [] false true ⟨∅, {"A"}⟩ "B"⟩

/-! ### `analyze_events` (`analyze.py`): the event merge step -/

/-- The shared `Event` fields (`event.py`) consumed by the merge step. -/
structure Event where
  label : String
  timestamp_realtime : Rat
  timestamp_monotonic : Rat
  source : String
  severity : EventSeverity
deriving DecidableEq, Repr

/-- The severity string exposed by a merged event record:
`Event.as_dict` pops the severity key when it is `INFO`, and the
warning partition reads it back with `.get("severity", "info")`. -/
def severityDictValue (e : Event) : String :=
  match e.severity with
  | .info => "info"
  | s => s.value

/-- The synthesized missing-cloud-init event
(`analyze.py` lines 100-108). -/
def cloudInitLogsMissingEvent (now : Rat) : Event where
  label := "CLOUDINIT_LOGS_MISSING"
  timestamp_realtime := now
  timestamp_monotonic := 0
  source := "analyze"
  severity := .warning

/-- The result of `analyze_events` (`EventData`; the `units` summary is
outside the event-merge claims and not modeled). -/
structure EventData where
  events : List Event
  warnings : List Event
deriving DecidableEq, Repr

/-- The comparison key the merge passes to Python's stable `sorted`:
ascending monotonic timestamp. -/
def eventLe (a b : Event) : Bool :=
  decide (a.timestamp_monotonic ≤ b.timestamp_monotonic)

/-- The collection phase of `analyze_events` (`analyze.py` lines
84-108): with `boot = true`, keep only the last boot of each source
(`[-1:]`); concatenate the per-boot event lists of the journal and
cloud-init sources and the systemd events; when the cloud-init source
produced no boots, append one synthesized `CLOUDINIT_LOGS_MISSING`
warning event timestamped `now` (`datetime.utcnow()`). -/
def collect_events (boot : Bool) (journals cloudinits : List (List Event))
    (systemd : Option (List Event)) (now : Rat) : List Event :=
  let journals := if boot then journals.drop (journals.length - 1) else journals
  let cloudinits := if boot then cloudinits.drop (cloudinits.length - 1) else cloudinits
  let events := journals.flatten ++ cloudinits.flatten ++
    (match systemd with
     | some evs => evs
     | none => [])
  if cloudinits.isEmpty then events ++ [cloudInitLogsMissingEvent now] else events

/-- `analyze_events` (`analyze.py` lines 76-128), over the per-boot
event lists each source's `get_events_of_interest` produced: collect,
sort ascending by monotonic timestamp with a stable sort (Python's
`sorted`, modeled by `List.mergeSort`), filter to the `event_types`
allow-list only when that list is truthy — `if event_types:` treats
both `None` and the empty list (the CLI default) as "no filter" — and
partition into `events` and the `warnings` subset. -/
def analyze_events (boot : Bool) (journals cloudinits : List (List Event))
    (systemd : Option (List Event)) (now : Rat)
    (event_types : Option (List String)) : EventData :=
  let events := collect_events boot journals cloudinits systemd now
  let events := events.mergeSort eventLe
  let events :=
    match event_types with
    | some ts =>
        if ts.isEmpty then events else events.filter (fun e => decide (e.label ∈ ts))
    | none => events
  { events := events
    warnings := events.filter (fun e => decide (severityDictValue e = "warning")) }

theorem eventLe_trans (a b c : Event) (hab : eventLe a b) (hbc : eventLe b c) :
    eventLe a c := by
  simp only [eventLe, decide_eq_true_eq] at hab hbc ⊢
  exact le_trans hab hbc

theorem eventLe_total (a b : Event) : eventLe a b || eventLe b a := by
  simp only [eventLe]
  rcases le_total a.timestamp_monotonic b.timestamp_monotonic with h | h
  · simp [h]
  · simp [h]

theorem severityDictValue_warning (e : Event) :
    (severityDictValue e = "warning") ↔ e.severity = EventSeverity.warning := by
  cases h : e.severity <;> simp [severityDictValue, h, EventSeverity.value]

/-- **C6.** The merge step of `analyze_events`: the returned `events`
list is sorted ascending by monotonic timestamp (so an event with a
strictly smaller timestamp always precedes one with a larger timestamp,
regardless of the order the sources were collected in); the sort is
stable (a pair of collected events in emission order whose timestamps
are non-decreasing — ties included — stays in that order); when the
allow-list is not truthy (`None` or the empty list, the CLI default,
per the `if event_types:` check) no filter is applied and the result is
a permutation of all collected events; with a non-empty allow-list
exactly the collected events whose label is allowed are retained; and
`warnings` is exactly the subset of the returned events carrying
warning severity. -/
theorem analyze_events_merge
    (boot : Bool) (journals cloudinits : List (List Event))
    (systemd : Option (List Event)) (now : Rat)
    (event_types : Option (List String)) (out : EventData)
    (hout : analyze_events boot journals cloudinits systemd now event_types = out) :
    out.events.Pairwise (fun a b => a.timestamp_monotonic ≤ b.timestamp_monotonic) ∧
    out.warnings = out.events.filter
      (fun e => decide (e.severity = EventSeverity.warning)) ∧
    (event_types = none ∨ event_types = some [] →
      out.events.Perm (collect_events boot journals cloudinits systemd now) ∧
      ∀ a b : Event, a.timestamp_monotonic ≤ b.timestamp_monotonic →
        [a, b].Sublist (collect_events boot journals cloudinits systemd now) →
        [a, b].Sublist out.events) ∧
    (∀ ts, event_types = some ts → ts ≠ [] →
      ∀ e : Event, e ∈ out.events ↔
        e ∈ collect_events boot journals cloudinits systemd now ∧ e.label ∈ ts) := by
  subst hout
  have hsorted : ((collect_events boot journals cloudinits systemd now).mergeSort
      eventLe).Pairwise (fun a b => a.timestamp_monotonic ≤ b.timestamp_monotonic) := by
    have h := List.sorted_mergeSort eventLe_trans eventLe_total
      (collect_events boot journals cloudinits systemd now)
    refine h.imp ?_
    intro a b hab
    simpa [eventLe] using hab
  refine ⟨?_, ?_, ?_, ?_⟩
  · cases event_types with
    | none => exact hsorted
    | some ts =>
        simp only [analyze_events]
        split
        · exact hsorted
        · exact hsorted.sublist (List.filter_sublist _)
  · simp only [analyze_events]
    apply List.filter_congr
    intro e he
    simp [severityDictValue_warning]
  · intro hn
    have hev : (analyze_events boot journals cloudinits systemd now event_types).events =
        (collect_events boot journals cloudinits systemd now).mergeSort eventLe := by
      rcases hn with hn | hn <;> subst hn <;> simp [analyze_events]
    rw [hev]
    constructor
    · exact List.mergeSort_perm _ _
    · intro a b hab hsub
      exact List.pair_sublist_mergeSort eventLe_trans eventLe_total
        (by simpa [eventLe] using hab) hsub
  · intro ts hts hne e
    subst hts
    simp only [analyze_events]
    rw [if_neg (by simpa using hne)]
    simp only [List.mem_filter, List.mem_mergeSort, decide_eq_true_eq]

/-- Witness for C6: the merge applied to empty sources with the CLI's
default allow-list `[]` — the falsy allow-list applies no filter, so
the synthesized missing-logs event is collected and retained. -/
theorem analyze_events_merge_witness :
    (⟨[cloudInitLogsMissingEvent 0], [cloudInitLogsMissingEvent 0]⟩ :
        EventData).events.Pairwise
      (fun a b => a.timestamp_monotonic ≤ b.timestamp_monotonic) ∧
    (⟨[cloudInitLogsMissingEvent 0], [cloudInitLogsMissingEvent 0]⟩ :
        EventData).warnings =
      (⟨[cloudInitLogsMissingEvent 0], [cloudInitLogsMissingEvent 0]⟩ :
        EventData).events.filter
        (fun e => decide (e.severity = EventSeverity.warning)) ∧
    ((some [] : Option (List String)) = none ∨
        (some [] : Option (List String)) = some [] →
      (⟨[cloudInitLogsMissingEvent 0], [cloudInitLogsMissingEvent 0]⟩ :
          EventData).events.Perm (collect_events true [] [] none 0) ∧
      ∀ a b : Event, a.timestamp_monotonic ≤ b.timestamp_monotonic →
        [a, b].Sublist (collect_events true [] [] none 0) →
        [a, b].Sublist (⟨[cloudInitLogsMissingEvent 0],
          [cloudInitLogsMissingEvent 0]⟩ : EventData).events) ∧
    (∀ ts, (some [] : Option (List String)) = some ts → ts ≠ [] →
      ∀ e : Event, e ∈ (⟨[cloudInitLogsMissingEvent 0],
          [cloudInitLogsMissingEvent 0]⟩ : EventData).events ↔
        e ∈ collect_events true [] [] none 0 ∧ e.label ∈ ts) :=
  analyze_events_merge true [] [] none 0 (some [])
    ⟨[cloudInitLogsMissingEvent 0], [cloudInitLogsMissingEvent 0]⟩
    (by simp [analyze_events, collect_events, severityDictValue,
      cloudInitLogsMissingEvent, EventSeverity.value])

/-- **C9.** When the cloud-init source produced no boots, the merge
step still returns a result (the embedded `analyze_events` is a total
function): it synthesizes exactly one `CLOUDINIT_LOGS_MISSING` event —
provided, as is the case for the repository's classifiers, no other
source emits that label — and that event carries warning severity and
appears in the `warnings` partition. -/
theorem analyze_events_missing_cloudinit
    (boot : Bool) (journals : List (List Event)) (systemd : Option (List Event))
    (now : Rat) (out : EventData)
    (hjournals : ∀ evs ∈ journals, ∀ e ∈ evs, e.label ≠ "CLOUDINIT_LOGS_MISSING")
    (hsystemd : ∀ evs, systemd = some evs →
      ∀ e ∈ evs, e.label ≠ "CLOUDINIT_LOGS_MISSING")
    (hout : analyze_events boot journals [] systemd now none = out) :
    (out.events.filter
      (fun e => decide (e.label = "CLOUDINIT_LOGS_MISSING"))).length = 1 ∧
    ∀ e ∈ out.events, e.label = "CLOUDINIT_LOGS_MISSING" →
      e.severity = EventSeverity.warning ∧ e ∈ out.warnings := by
  subst hout
  have hc : collect_events boot journals [] systemd now =
      ((if boot then journals.drop (journals.length - 1) else journals).flatten ++
        systemd.getD []) ++ [cloudInitLogsMissingEvent now] := by
    cases systemd <;> simp [collect_events]
  have hnotmiss : ∀ e, e ∈ (if boot then journals.drop (journals.length - 1)
        else journals).flatten ++ systemd.getD [] →
      ¬ e.label = "CLOUDINIT_LOGS_MISSING" := by
    intro e he
    rcases List.mem_append.mp he with he | he
    · obtain ⟨evs, hevs, hee⟩ := List.mem_flatten.mp he
      have hevs2 : evs ∈ journals := by
        split at hevs
        · exact List.mem_of_mem_drop hevs
        · exact hevs
      exact hjournals evs hevs2 e hee
    · cases hsys : systemd with
      | none => rw [hsys] at he; exact absurd he (by simp)
      | some evs =>
          rw [hsys] at he
          exact hsystemd evs hsys e he
  have hperm : ((collect_events boot journals [] systemd now).mergeSort
      eventLe).Perm (collect_events boot journals [] systemd now) :=
    List.mergeSort_perm _ _
  constructor
  · have hfil : (collect_events boot journals [] systemd now).filter
        (fun e => decide (e.label = "CLOUDINIT_LOGS_MISSING")) =
        [cloudInitLogsMissingEvent now] := by
      rw [hc, List.filter_append]
      rw [List.filter_eq_nil_iff.mpr
        (by
          intro e he
          simpa using hnotmiss e he)]
      simp [cloudInitLogsMissingEvent]
    have := (hperm.filter (fun e => decide (e.label = "CLOUDINIT_LOGS_MISSING"))).length_eq
    simp only [analyze_events]
    rw [this, hfil]
    rfl
  · intro e he hl
    have hmem : e ∈ collect_events boot journals [] systemd now := by
      have : e ∈ (collect_events boot journals [] systemd now).mergeSort eventLe := he
      exact hperm.mem_iff.mp this
    rw [hc] at hmem
    rcases List.mem_append.mp hmem with hmem | hmem
    · exact absurd hl (hnotmiss e hmem)
    · simp only [List.mem_singleton] at hmem
      subst hmem
      refine ⟨rfl, ?_⟩
      simp only [analyze_events, List.mem_filter]
      exact ⟨he, by simp [severityDictValue, cloudInitLogsMissingEvent,
        EventSeverity.value]⟩

/-- Witness for C9: all sources empty — the result holds exactly one
missing-cloud-init warning. -/
theorem analyze_events_missing_cloudinit_witness :
    ((⟨[cloudInitLogsMissingEvent 0], [cloudInitLogsMissingEvent 0]⟩ :
        EventData).events.filter
      (fun e => decide (e.label = "CLOUDINIT_LOGS_MISSING"))).length = 1 ∧
    ∀ e ∈ (⟨[cloudInitLogsMissingEvent 0], [cloudInitLogsMissingEvent 0]⟩ :
        EventData).events, e.label = "CLOUDINIT_LOGS_MISSING" →
      e.severity = EventSeverity.warning ∧
        e ∈ (⟨[cloudInitLogsMissingEvent 0], [cloudInitLogsMissingEvent 0]⟩ :
          EventData).warnings :=
  analyze_events_missing_cloudinit true [] none 0
    ⟨[cloudInitLogsMissingEvent 0], [cloudInitLogsMissingEvent 0]⟩
    (by simp) (by simp)
    (by simp [analyze_events, collect_events, severityDictValue,
      cloudInitLogsMissingEvent, EventSeverity.value])

/-! ### `systemd.py`: unit activation time and event viability -/

/-- A systemd unit (`systemd.py`, `SystemdUnit` = `SystemdUnitList` +
`SystemdUnitShow`): the brief list state plus the show-state
timestamps.  Realtime timestamps are `datetime` objects in Python
(truthy whenever present); monotonic timestamps are floats (`0.0` is
falsy, encoding "never"). -/
structure SystemdUnit where
  unit : String
  active : String
  load : String
  sub : String
  description : String
  after : List String
  condition_result : Option Bool
  exec_main_start_timestamp : Option Rat
  exec_main_exit_timestamp : Option Rat
  active_enter_timestamp : Option Rat
  inactive_enter_timestamp : Option Rat
  inactive_exit_timestamp : Option Rat
  exec_main_start_timestamp_monotonic : Option Rat
  exec_main_exit_timestamp_monotonic : Option Rat
  active_enter_timestamp_monotonic : Option Rat
  inactive_enter_timestamp_monotonic : Option Rat
  inactive_exit_timestamp_monotonic : Option Rat
deriving DecidableEq, Repr

/-- `SystemdUnitList.is_failed`. -/
def SystemdUnit.is_failed (u : SystemdUnit) : Bool :=
  u.active = "failed"

/-- `SystemdUnitShow.get_time_to_activate` (`systemd.py` lines
123-152): the fallback chain — (a) `active_enter - inactive_exit` when
both are truthy, else (b) `exec_main_exit - exec_main_start` when both
are truthy, else (c) `inactive_exit - inactive_enter` when both are
truthy (a failed activation), else a `ValueError`. -/
def SystemdUnit.get_time_to_activate (u : SystemdUnit) : Except String Rat :=
  if floatTruthy u.active_enter_timestamp_monotonic = true ∧
      floatTruthy u.inactive_exit_timestamp_monotonic = true then
    .ok (u.active_enter_timestamp_monotonic.getD 0 -
      u.inactive_exit_timestamp_monotonic.getD 0)
  else if floatTruthy u.exec_main_exit_timestamp_monotonic = true ∧
      floatTruthy u.exec_main_start_timestamp_monotonic = true then
    .ok (u.exec_main_exit_timestamp_monotonic.getD 0 -
      u.exec_main_start_timestamp_monotonic.getD 0)
  else if floatTruthy u.inactive_exit_timestamp_monotonic = true ∧
      floatTruthy u.inactive_enter_timestamp_monotonic = true then
    .ok (u.inactive_exit_timestamp_monotonic.getD 0 -
      u.inactive_enter_timestamp_monotonic.getD 0)
  else .error "unable to determine time to activate"

/-- `SystemdUnitShow.get_time_of_activation` (lines 154-165). -/
def SystemdUnit.get_time_of_activation (u : SystemdUnit) : Except String Rat :=
  if floatTruthy u.active_enter_timestamp_monotonic = true then
    .ok (u.active_enter_timestamp_monotonic.getD 0)
  else if floatTruthy u.exec_main_exit_timestamp_monotonic = true then
    .ok (u.exec_main_exit_timestamp_monotonic.getD 0)
  else if floatTruthy u.inactive_exit_timestamp_monotonic = true then
    .ok (u.inactive_exit_timestamp_monotonic.getD 0)
  else .error "unable to determine time of completion"

/-- `SystemdUnitShow.get_time_of_activation_realtime` (lines 167-178);
a `datetime` is truthy whenever present. -/
def SystemdUnit.get_time_of_activation_realtime (u : SystemdUnit) : Except String Rat :=
  if u.active_enter_timestamp.isSome = true then
    .ok (u.active_enter_timestamp.getD 0)
  else if u.exec_main_exit_timestamp.isSome = true then
    .ok (u.exec_main_exit_timestamp.getD 0)
  else if u.inactive_exit_timestamp.isSome = true then
    .ok (u.inactive_exit_timestamp.getD 0)
  else .error "unable to determine realtime of completion"

/-- `SystemdUnit.is_viable_event` (lines 250-258): try the three
getters; any `ValueError` makes the unit non-viable. -/
def SystemdUnit.is_viable_event (u : SystemdUnit) : Bool :=
  match u.get_time_to_activate, u.get_time_of_activation,
      u.get_time_of_activation_realtime with
  | .ok _, .ok _, .ok _ => true
  | _, _, _ => false

/-- The per-unit event emitted by `SystemdUnit.as_event`. -/
structure SystemdUnitEvent where
  label : String
  source : String
  unit : String
  time_to_activate : Rat
  time_of_activation : Rat
  timestamp_monotonic : Rat
  timestamp_realtime : Rat
  status : String
  severity : EventSeverity
deriving DecidableEq, Repr

/-- The one system-wide event of `Systemd.as_event`. -/
structure SystemdSystemEvent where
  label : String
  source : String
  timestamp_realtime : Rat
  timestamp_monotonic : Rat
  userspace_timestamp : Rat
  userspace_timestamp_monotonic : Rat
  finish_timestamp : Rat
  finish_timestamp_monotonic : Rat
  system_state : String
  severity : EventSeverity
deriving DecidableEq, Repr

/-- The heterogeneous systemd event stream. -/
inductive SystemdEvent where
  | unitEvent (e : SystemdUnitEvent)
  | systemEvent (e : SystemdSystemEvent)
deriving DecidableEq, Repr

/-- `SystemdUnit.as_event` (lines 268-288): warning severity for a
failed unit, all three activation times resolved (any `ValueError`
propagates). -/
def SystemdUnit.as_event (u : SystemdUnit) : Except String SystemdUnitEvent := do
  let severity := if u.is_failed = true then EventSeverity.warning else EventSeverity.info
  let time_to_activate ← u.get_time_to_activate
  let time_of_activation ← u.get_time_of_activation
  let time_of_activation_realtime ← u.get_time_of_activation_realtime
  return { label := "SYSTEMD_UNIT"
           source := "systemd"
           unit := u.unit
           time_to_activate := time_to_activate
           time_of_activation := time_of_activation
           timestamp_monotonic := time_of_activation
           timestamp_realtime := time_of_activation_realtime
           status := u.active
           severity := severity }

/-- The systemd snapshot (`systemd.py`, `Systemd`): the unit map
(modeled as the list of its values; names are unique within one
snapshot) plus the system-wide timestamps and state. -/
structure Systemd where
  units : List SystemdUnit
  userspace_timestamp : Rat
  userspace_timestamp_monotonic : Rat
  finish_timestamp : Rat
  finish_timestamp_monotonic : Rat
  system_state : String
deriving DecidableEq, Repr

/-- `Systemd.as_event` (lines 403-420). -/
def Systemd.as_event (sys : Systemd) : SystemdSystemEvent where
  label := "SYSTEMD_SYSTEM"
  source := "systemd"
  timestamp_monotonic := sys.finish_timestamp_monotonic
  timestamp_realtime := sys.finish_timestamp
  userspace_timestamp := sys.userspace_timestamp
  userspace_timestamp_monotonic := sys.userspace_timestamp_monotonic
  finish_timestamp := sys.finish_timestamp
  finish_timestamp_monotonic := sys.finish_timestamp_monotonic
  system_state := sys.system_state
  severity := if sys.system_state ≠ "running" then .warning else .info

/-- The `[u.as_event() for u in units if u.is_viable_event()]`
comprehension of `Systemd.get_events_of_interest`. -/
def unit_events : List SystemdUnit → Except String (List SystemdUnitEvent)
  | [] => .ok []
  | u :: rest => do
      let e ← u.as_event
      let es ← unit_events rest
      return e :: es

/-- `Systemd.get_events_of_interest` (lines 422-434): the events of all
viable units, then the system-wide event. -/
def Systemd.get_events_of_interest (sys : Systemd) :
    Except String (List SystemdEvent) := do
  let ues ← unit_events (sys.units.filter SystemdUnit.is_viable_event)
  return ues.map SystemdEvent.unitEvent ++ [SystemdEvent.systemEvent sys.as_event]

theorem unit_events_mem {us : List SystemdUnit} {es : List SystemdUnitEvent}
    (h : unit_events us = .ok es) :
    ∀ e ∈ es, ∃ u ∈ us, u.as_event = .ok e := by
  induction us generalizing es with
  | nil =>
      simp only [unit_events] at h
      cases h
      simp
  | cons u rest ih =>
      simp only [unit_events] at h
      cases hu : u.as_event with
      | error err =>
          rw [hu] at h
          exact Except.noConfusion
            (h : (Except.error err : Except String (List SystemdUnitEvent)) = .ok es)
      | ok e0 =>
          rw [hu] at h
          cases hr : unit_events rest with
          | error err =>
              rw [hr] at h
              exact Except.noConfusion
                (h : (Except.error err : Except String (List SystemdUnitEvent)) = .ok es)
          | ok es0 =>
              rw [hr] at h
              have h2 : Except.ok (e0 :: es0) = Except.ok es := h
              injection h2 with h2
              subst h2
              intro e he
              rcases List.mem_cons.mp he with he | he
              · exact ⟨u, List.mem_cons_self u rest, by rw [hu, he]⟩
              · obtain ⟨u2, hu2, he2⟩ := ih hr e he
                exact ⟨u2, List.mem_cons_of_mem _ hu2, he2⟩

/-- **C8.** The activation-time fallback chain, in priority order:
(a) `active_enter - inactive_exit` when both are recorded (truthy);
(b) otherwise `exec_main_exit - exec_main_start` when both are
recorded; (c) otherwise `inactive_exit - inactive_enter` when both are
recorded (the failed-activation case of the source comment); and when
none of the three applies the getter raises, the unit is not viable,
and no `SYSTEMD_UNIT` event for it appears in the systemd event
stream. -/
theorem systemd_time_to_activate_chain :
    (∀ (u : SystemdUnit) (ae ie : Rat),
      u.active_enter_timestamp_monotonic = some ae → ae ≠ 0 →
      u.inactive_exit_timestamp_monotonic = some ie → ie ≠ 0 →
      u.get_time_to_activate = .ok (ae - ie)) ∧
    (∀ (u : SystemdUnit) (ee es : Rat),
      ¬ (floatTruthy u.active_enter_timestamp_monotonic = true ∧
         floatTruthy u.inactive_exit_timestamp_monotonic = true) →
      u.exec_main_exit_timestamp_monotonic = some ee → ee ≠ 0 →
      u.exec_main_start_timestamp_monotonic = some es → es ≠ 0 →
      u.get_time_to_activate = .ok (ee - es)) ∧
    (∀ (u : SystemdUnit) (ix ie : Rat),
      ¬ (floatTruthy u.active_enter_timestamp_monotonic = true ∧
         floatTruthy u.inactive_exit_timestamp_monotonic = true) →
      ¬ (floatTruthy u.exec_main_exit_timestamp_monotonic = true ∧
         floatTruthy u.exec_main_start_timestamp_monotonic = true) →
      u.inactive_exit_timestamp_monotonic = some ix → ix ≠ 0 →
      u.inactive_enter_timestamp_monotonic = some ie → ie ≠ 0 →
      u.get_time_to_activate = .ok (ix - ie)) ∧
    (∀ u : SystemdUnit,
      ¬ (floatTruthy u.active_enter_timestamp_monotonic = true ∧
         floatTruthy u.inactive_exit_timestamp_monotonic = true) →
      ¬ (floatTruthy u.exec_main_exit_timestamp_monotonic = true ∧
         floatTruthy u.exec_main_start_timestamp_monotonic = true) →
      ¬ (floatTruthy u.inactive_exit_timestamp_monotonic = true ∧
         floatTruthy u.inactive_enter_timestamp_monotonic = true) →
      u.get_time_to_activate = .error "unable to determine time to activate" ∧
      u.is_viable_event = false ∧
      ∀ (sys : Systemd) (evs : List SystemdEvent),
        (∀ v ∈ sys.units, v.unit = u.unit → v = u) →
        sys.get_events_of_interest = .ok evs →
        ∀ ev ∈ evs, ∀ ue : SystemdUnitEvent,
          ev = SystemdEvent.unitEvent ue → ue.unit ≠ u.unit) := by
  refine ⟨?_, ?_, ?_, ?_⟩
  · intro u ae ie hae haene hie hiene
    simp [SystemdUnit.get_time_to_activate, floatTruthy, hae, hie, haene, hiene]
  · intro u ee es hnota hee heene hes hesne
    rw [SystemdUnit.get_time_to_activate, if_neg hnota]
    simp [floatTruthy, hee, hes, heene, hesne]
  · intro u ix ie hnota hnotb hix hixne hie hiene
    rw [SystemdUnit.get_time_to_activate, if_neg hnota, if_neg hnotb]
    simp [floatTruthy, hix, hie, hixne, hiene]
  · intro u hnota hnotb hnotc
    have herr : u.get_time_to_activate = .error "unable to determine time to activate" := by
      rw [SystemdUnit.get_time_to_activate, if_neg hnota, if_neg hnotb, if_neg hnotc]
    have hviable : u.is_viable_event = false := by
      rw [SystemdUnit.is_viable_event, herr]
    refine ⟨herr, hviable, ?_⟩
    intro sys evs huniq hevs ev hev ue heq
    subst heq
    intro hulabel
    simp only [Systemd.get_events_of_interest] at hevs
    cases hue : unit_events (sys.units.filter SystemdUnit.is_viable_event) with
    | error err =>
        rw [hue] at hevs
        exact Except.noConfusion
          (hevs : (Except.error err : Except String (List SystemdEvent)) = .ok evs)
    | ok ues =>
        rw [hue] at hevs
        have hevs2 : Except.ok (ues.map SystemdEvent.unitEvent ++
            [SystemdEvent.systemEvent sys.as_event]) = Except.ok evs := hevs
        injection hevs2 with hevs2
        subst hevs2
        rcases List.mem_append.mp hev with hev | hev
        · obtain ⟨ue2, hue2, heq2⟩ := List.mem_map.mp hev
          injection heq2 with heq2
          subst heq2
          obtain ⟨u2, hu2, hu2e⟩ := unit_events_mem hue ue2 hue2
          have hu2mem := List.mem_filter.mp hu2
          have hu2unit : u2.unit = ue2.unit := by
            simp only [SystemdUnit.as_event] at hu2e
            cases h1 : u2.get_time_to_activate with
            | error err =>
                rw [h1] at hu2e
                exact Except.noConfusion
                  (hu2e : (Except.error err : Except String SystemdUnitEvent) = .ok ue2)
            | ok v1 =>
                rw [h1] at hu2e
                cases h2 : u2.get_time_of_activation with
                | error err =>
                    rw [h2] at hu2e
                    exact Except.noConfusion
                      (hu2e : (Except.error err : Except String SystemdUnitEvent) = .ok ue2)
                | ok v2 =>
                    rw [h2] at hu2e
                    cases h3 : u2.get_time_of_activation_realtime with
                    | error err =>
                        rw [h3] at hu2e
                        exact Except.noConfusion
                          (hu2e : (Except.error err : Except String SystemdUnitEvent) = .ok ue2)
                    | ok v3 =>
                        rw [h3] at hu2e
                        have h4 := congrArg (fun r =>
                          match r with
                          | Except.ok e => SystemdUnitEvent.unit e
                          | Except.error _ => u2.unit) hu2e
                        exact h4

          have : u2 = u := huniq u2 hu2mem.1 (hu2unit.trans hulabel)
          rw [this] at hu2mem
          rw [hviable] at hu2mem
          exact absurd hu2mem.2 (by simp)
        · simp only [List.mem_singleton] at hev
          exact SystemdEvent.noConfusion hev

/-- Witness for C8: a unit with only the exec-main timestamp pair
recorded falls back to case (b); a unit with no timestamps at all is
non-viable and emits no unit event in a one-unit snapshot. -/
theorem systemd_time_to_activate_chain_witness :
    (⟨"b.service", "active", "loaded", "running", "", [], some true,
        none, none, none, none, none, some 3, some 9, none, none, none⟩ :
        SystemdUnit).get_time_to_activate = .ok (9 - 3) ∧
    (⟨"n.service", "inactive", "loaded", "dead", "", [], some true,
        none, none, none, none, none, none, none, none, none, none⟩ :
        SystemdUnit).is_viable_event = false :=
  ⟨systemd_time_to_activate_chain.2.1
      ⟨"b.service", "active", "loaded", "running", "", [], some true,
        none, none, none, none, none, some 3, some 9, none, none, none⟩
      9 3 (by decide) rfl (by decide) rfl (by decide),
    (systemd_time_to_activate_chain.2.2.2
      ⟨"n.service", "inactive", "loaded", "dead", "", [], some true,
        none, none, none, none, none, none, none, none, none, none⟩
      (by decide) (by decide) (by decide)).2.1⟩

/-! ### C7: the `Event.severity` dataclass default -/

/-- The classifier output of `CloudInitEntry.as_event`
(`CloudInitEvent`): the entry fields plus label/source and the
severity inherited from `Event`. -/
structure CloudInitEvent where
  label : String
  source : String
  message : String
  event_type : String
  stage : Option String
  module : Option String
  result : Option String
  timestamp_realtime : Rat
  timestamp_monotonic : Rat
  severity : EventSeverity
deriving DecidableEq, Repr

/-- `CloudInitEntry.as_event` (`cloudinit.py` lines 177-178):
`CloudInitEvent(**self.__dict__, label=label, source="cloudinit")`
passes no `severity` keyword, so the construction falls back to the
dataclass default of the field. -/
def CloudInitEntry.as_event (e : CloudInitEntry) (label : String) :
    Except String CloudInitEvent := do
  let severity ← resolveSeverityArg none
  return { label := label
           source := "cloudinit"
           message := e.message
           event_type := e.event_type
           stage := e.stage
           module := e.module
           result := e.result
           timestamp_realtime := e.timestamp_realtime
           timestamp_monotonic := e.timestamp_monotonic
           severity := severity }

/-- **C7** (evaluation of the code at the failing input).  The
`Event.severity` field has no declared default, so the classifier
construction sites that omit the severity keyword —
`CloudInitEntry.as_event` and the `CloudInitFrame` constructor call in
`get_frames` — fail with a `TypeError` instead of defaulting the
severity to info, refuting the claim that an `Event` constructed
without an explicit severity gets severity info. -/
theorem event_severity_no_default_evaluation :
    eventSeverityFieldDefault = none ∧
    resolveSeverityArg getFramesSeverityArg =
      .error "TypeError: missing required argument: severity" ∧
    CloudInitEntry.as_event (plainEntry "Closing stdin." 1 false none)
        "CLOUDINIT_FRAME_START" =
      .error "TypeError: missing required argument: severity" := by
  refine ⟨rfl, rfl, rfl⟩

end Lpt
